import Mathlib

/-!
Verification development for the Reddit_MatchMaker repository.

The repository has two near-duplicate entry points, `main.py` and
`immediate_response_script.py`.  They share the eligibility check, code
generation and DM-sending functions and the per-row state machine of
`process_responses`; they differ in the column-resolver (`setup_sheet`),
in the retry loop (the immediate variant sleeps 120 seconds after each
failed attempt, the main variant uses a short-circuiting `any` with no
inter-attempt delay), and in minor message texts.

The embedding models Python strings as Lean `String`s (with the relevant
Python string primitives re-implemented at the `List Char` level so that
they can be reasoned about), external collaborators (clock, Reddit account
lookup, DM delivery outcomes, `random.choice` indices) as an explicit
`Env` record, and the observable side effects of a row (account lookups,
code generation, DM sends, sleeps) as a trace of `Event`s.
-/

set_option autoImplicit false

namespace RedditMatchMaker

/-! ## Python string primitives -/

/-- Python `str.strip()` on a list of characters: drop whitespace from both
ends. -/
def pyStrip (l : List Char) : List Char :=
  ((l.dropWhile Char.isWhitespace).reverse.dropWhile Char.isWhitespace).reverse

/-- Python `str.strip()` on a `String`. -/
def pyStripS (s : String) : String :=
  String.mk (pyStrip s.data)

/-- Python `str.lower()` (ASCII-adequate for the strings this program
handles). -/
def pyLower (s : String) : String :=
  String.mk (s.data.map Char.toLower)

/-- Python `s.startswith(p)`. -/
def pyStartsWith (s p : String) : Bool :=
  p.data.isPrefixOf s.data

/-- Python `s.split('u/')` at the character level: scan left to right,
cutting at each (case-sensitive) occurrence of the two-character
separator `u/`.  `''.split` of an empty remainder yields `[[]]`, exactly
as in Python `"u/".split("u/") == ['', '']`. -/
def splitUSlash : List Char → List (List Char)
  | [] => [[]]
  | [c] => [[c]]
  | c1 :: c2 :: cs =>
    if c1 = 'u' ∧ c2 = '/' then
      [] :: splitUSlash cs
    else
      match splitUSlash (c2 :: cs) with
      | p :: ps => (c1 :: p) :: ps
      | [] => [[c1]]

/-- Python `list[-1]` on a non-empty list of segments (a split result is
never empty; the default for `[]` is never reached). -/
def lastPart : List (List Char) → List Char
  | [] => []
  | [p] => p
  | _ :: p :: ps => lastPart (p :: ps)

/-- The username actually handed to the Reddit API by both `is_eligible`
and `send_dm`: Python `username.split('u/')[-1].strip()`. -/
def lookupName (username : String) : String :=
  String.mk (pyStrip (lastPart (splitUSlash username.data)))

/-! ## Configuration (identical in both source files) -/

def MIN_ACCOUNT_AGE_DAYS : Nat := 90

def MAX_DM_RETRIES : Nat := 3

/-- `COLUMN_MAP` of `main.py`: logical key ↦ exact display name. -/
def COLUMN_MAP : List (String × String) :=
  [("username", "Reddit Username:"),
   ("dm_pref", "Do You Accept DM Notifications About Your Match?"),
   ("code", "Code"),
   ("status", "Status"),
   ("dm_status", "DM Status")]

/-- `REQUIRED_COLUMNS` of `immediate_response_script.py` (same content as
`COLUMN_MAP`). -/
def REQUIRED_COLUMNS : List (String × String) :=
  [("username", "Reddit Username:"),
   ("dm_pref", "Do You Accept DM Notifications About Your Match?"),
   ("code", "Code"),
   ("status", "Status"),
   ("dm_status", "DM Status")]

def HUMOR_dm_messages : List String :=
  ["Your code survived 3 rounds of load shedding ⚡",
   "Approved by 9/10 street cows of Kathmandu 🐄",
   "Contains pure momo energy - handle with care! 🥟"]

def HUMOR_rejections : List String :=
  ["Account younger than Nepal\x27s average power cut ⏳",
   "Come back after your account survives TIA WiFi ☕",
   "Age requirement: Survived 5+ internet shutdowns"]

/-- The two DM-preference strings accepted by `process_responses`. -/
def ACCEPTED_PREFS : List String :=
  ["Yes, I want to receive a DM with my match\x27s username, code, and the scientific reason why we were paired.",
   "Maybe, but only if my match is cool."]

/-- Statuses skipped at the top of the row loop:
`['Processed', 'Rejected', 'Opted Out']`. -/
def skipStatuses : List String :=
  ["Processed", "Rejected", "Opted Out"]

/-! ## Data model -/

/-- The two near-duplicate entry points. -/
inductive Variant where
  | main
  | immediate
  deriving DecidableEq

/-- One spreadsheet row: the cells `process_responses` reads and writes.
The empty string models an empty cell (Python truthiness of
`sheet.cell(...).value`). -/
structure Row where
  username : String
  dm_pref : String
  code : String
  status : String
  dm_status : String
  deriving DecidableEq, Inhabited, Repr

/-- External collaborators and sources of nondeterminism for processing
one row:
* `nowUtc` — the current time in seconds (both `datetime.utcnow()` and the
  `datetime.now()` used when hashing a fresh code);
* `lookup` — the Reddit account directory: handle ↦ `created_utc`
  timestamp, or an error message for any failure (account not found,
  network error, rate limiting, any exception);
* `freshCode` — the value of `generate_code`, i.e.
  `sha256(username + now)[:8].upper()`; supplied by the environment since
  it depends on the wall clock;
* `dmOutcome i` — whether the `i`-th `send_dm` call of this row reaches
  Reddit without an exception;
* `humorIdx`, `rejectIdx` — the indices `random.choice` picks from the
  humor pools. -/
structure Env where
  nowUtc : Nat
  lookup : String → Except String Nat
  freshCode : String
  dmOutcome : Nat → Bool
  humorIdx : Nat
  rejectIdx : Nat

/-- Observable side effects of processing a row. -/
inductive Event where
  | lookupAcct (name : String)
  | genCode (code : String)
  | sendDM (recipient : String) (subject : String) (message : String) (isRetry : Bool)
  | sleep (seconds : Nat)
  deriving DecidableEq, Repr

/-! ## Core functions -/

/-- The body of `is_eligible`'s `try:` block: look up the account, then
compare the elapsed whole days (`timedelta.days`) with
`MIN_ACCOUNT_AGE_DAYS`.  Any lookup failure is an `Except.error`. -/
def is_eligible_checked (env : Env) (username : String) : Except String Bool :=
  match env.lookup (lookupName username) with
  | Except.error e => Except.error e
  | Except.ok created =>
      Except.ok (decide ((env.nowUtc - created) / 86400 ≥ MIN_ACCOUNT_AGE_DAYS))

/-- `is_eligible`: the `except Exception: return False` wrapper around the
body. -/
def is_eligible (env : Env) (username : String) : Bool :=
  match is_eligible_checked env username with
  | Except.ok b => b
  | Except.error _ => false

/-- `generate_code(username)`: `sha256(f"{username}{datetime.now()}")`
truncated to 8 uppercase hex characters.  The hash of the current
timestamp is not reproducible inside the embedding, so the generated
value is supplied by the environment; what matters for the spec is where
this fresh value flows. -/
def generate_code (env : Env) : String :=
  env.freshCode

/-- The warning `send_dm` appends to the message body on a retry. -/
def RETRY_WARNING : String :=
  "\n\n⚠️ Final attempt! Lose this and you get AutoModerator 🤖"

/-- `send_dm(reddit, username, message, is_retry)`.  Returns whether the
send succeeded together with the trace: one `sendDM` event (the attempt),
followed by the 20-second rate-limit sleep when the send did not raise.
`callIdx` indexes this row's `send_dm` calls into `env.dmOutcome`. -/
def send_dm (env : Env) (callIdx : Nat) (username message : String) (isRetry : Bool) :
    Bool × List Event :=
  let subject := if isRetry then "🚨 Code Redelivery!" else "🔐 Your Match Code"
  let msg := if isRetry then message ++ RETRY_WARNING else message
  let ok := env.dmOutcome callIdx
  (ok,
   if ok then
     [Event.sendDM (lookupName username) subject msg isRetry, Event.sleep 20]
   else
     [Event.sendDM (lookupName username) subject msg isRetry])

/-- The delay inserted after a failed attempt: none in `main.py`
(`any(...)` back-to-back), a 120-second sleep in
`immediate_response_script.py`. -/
def variantSleeps : Variant → List Event
  | Variant.main => []
  | Variant.immediate => [Event.sleep 120]

/-- The delivery retry loop, `attempt` being the current index and `fuel`
the remaining iterations of `range(MAX_DM_RETRIES)`.  Stops on the first
successful attempt; `attempt > 0` marks retries. -/
def retryLoop (v : Variant) (env : Env) (username message : String) :
    Nat → Nat → Bool × List Event
  | _, 0 => (false, [])
  | attempt, fuel + 1 =>
    let r := send_dm env attempt username message (decide (attempt > 0))
    if r.1 then
      (true, r.2)
    else
      let tail := retryLoop v env username message (attempt + 1) fuel
      (tail.1, r.2 ++ variantSleeps v ++ tail.2)

/-- The rejection DM body (the immediate variant adds a "Minimum 1 meme"
line). -/
def rejectionMsg (v : Variant) (env : Env) : String :=
  let choice := HUMOR_rejections.getD env.rejectIdx ""
  match v with
  | Variant.main =>
      "🚨 Disqualified!\n\n" ++ choice ++ "\n\nRequirements:\n- Account age ≥ "
        ++ toString MIN_ACCOUNT_AGE_DAYS ++ " days"
  | Variant.immediate =>
      "🚨 Disqualified!\n\n" ++ choice ++ "\n\nRequirements:\n- Account age ≥ "
        ++ toString MIN_ACCOUNT_AGE_DAYS
        ++ " days\n- Minimum 1 meme posted (optional but encouraged)"

/-- The acceptance DM body, built around the freshly generated `code`. -/
def acceptMessage (v : Variant) (code humor : String) : String :=
  match v with
  | Variant.main =>
      "🎉 Your Match Code: " ++ code
        ++ "\n\n🔮 How this works:\n1. Results in 3-5 days\n2. Lose code = match with AutoMod\n3. Valid during outages\n\n"
        ++ humor
  | Variant.immediate =>
      "🎉 Your Match Code: " ++ code
        ++ "\n\n🔮 How this works:\n1. Results in 3-5 days (need to consult Bagmati River dolphins 🐬)\n2. Lose code = match with r/Nepal AutoModerator\n3. Valid during strikes, protests, and NTC outages\n\n"
        ++ humor

/-- One iteration of the row loop of `process_responses` (the body of its
per-row `try:` block), returning the row's new cells and the trace of
observable effects.  Mirrors the source order: skip-list check, DM
preference check, `u/` format check, eligibility check + rejection DM,
code generation with write-if-empty, acceptance DM with retries, final
status and DM-status writes. -/
def processRow (v : Variant) (env : Env) (row : Row) : Row × List Event :=
  if skipStatuses.contains row.status then
    (row, [])
  else
    let username := pyStripS row.username
    let dm_pref := pyStripS row.dm_pref
    if !(ACCEPTED_PREFS.contains dm_pref) then
      ({row with status := "Opted Out"}, [])
    else if !(pyStartsWith (pyLower username) "u/") then
      ({row with status := "Invalid Format"}, [])
    else if !(is_eligible env username) then
      ({row with status := "Rejected"},
       Event.lookupAcct (lookupName username)
         :: (send_dm env 0 username (rejectionMsg v env) false).2)
    else
      let code := generate_code env
      let row1 := if row.code = "" then {row with code := code} else row
      let message := acceptMessage v code (HUMOR_dm_messages.getD env.humorIdx "")
      let result := retryLoop v env username message 0 MAX_DM_RETRIES
      ({row1 with
          status := if result.1 then "Processed" else "Failed",
          dm_status := if result.1 then "✅ Sent" else "❌ Failed"},
       Event.lookupAcct (lookupName username)
         :: Event.genCode code
         :: result.2)

/-- The `except Exception` handler of the row loop: a faulting row body
(which may already have performed some cell writes, carried in the error
payload) has its status forced to `Error`. -/
def processRowCaught (body : Row → Except Row (Row × List Event)) (row : Row) :
    Row × List Event :=
  match body row with
  | Except.ok out => out
  | Except.error rowSoFar => ({rowSoFar with status := "Error"}, [])

/-- The row loop itself: every row is processed, each under its own
exception handler. -/
def runRows (body : Row → Except Row (Row × List Event)) : List Row → List (Row × List Event)
  | [] => []
  | r :: rs => processRowCaught body r :: runRows body rs

/-! ## Column resolver (`setup_sheet`), both variants -/

/-- Python `list.index`, which raises `ValueError` when absent. -/
def pyIndex (headers : List String) (name : String) : Except String Nat :=
  if headers.contains name then Except.ok (headers.indexOf name) else Except.error "ValueError"

/-- `setup_sheet` of `main.py`: strip the headers, append (in
specification order) every required display name that is not an exact
post-strip match, then resolve every key against the extended header
row.  The final resolution loop cannot fail, since each missing name was
just appended. -/
def setup_sheet_main (rawHeaders : List String) : Except String (List (String × Nat)) :=
  let headers := rawHeaders.map pyStripS
  let newColumns :=
    COLUMN_MAP.filterMap (fun kv => if headers.contains kv.2 then none else some kv.2)
  let headers2 := headers ++ newColumns
  COLUMN_MAP.mapM (fun kv => (pyIndex headers2 kv.2).map (fun i => (kv.1, i + 1)))

/-- `setup_sheet` of `immediate_response_script.py`: headers are matched
case-insensitively (strip + lower) to decide which columns are missing
and must be appended, but the final verification loop then resolves each
required display name by *exact* match against the stripped headers and
raises `RuntimeError("Missing critical column: '...'")` when that exact
match fails.  (The first, case-insensitive resolution loop of the source
is dead code: the final loop overwrites every key or raises.) -/
def setup_sheet_immediate (rawHeaders : List String) : Except String (List (String × Nat)) :=
  let headers := rawHeaders.map pyStripS
  let normalizedHeaders := headers.map (fun h => pyLower (pyStripS h))
  let newColumns :=
    REQUIRED_COLUMNS.filterMap (fun kv =>
      if normalizedHeaders.contains (pyLower (pyStripS kv.2)) then none else some kv.2)
  let headers2 := headers ++ newColumns
  REQUIRED_COLUMNS.mapM (fun kv =>
    match pyIndex headers2 kv.2 with
    | Except.ok i => Except.ok (kv.1, i + 1)
    | Except.error _ => Except.error ("Missing critical column: \x27" ++ kv.2 ++ "\x27"))

/-! ## Trace observations -/

/-- The retry flags of the DM sends in a trace, in order. -/
def sendRetryFlags (evs : List Event) : List Bool :=
  evs.filterMap (fun e =>
    match e with
    | Event.sendDM _ _ _ b => some b
    | _ => none)

/-- How many DM send attempts a trace contains. -/
def numSends (evs : List Event) : Nat :=
  (sendRetryFlags evs).length

/-- How many 120-second sleeps a trace contains. -/
def sleep120Count (evs : List Event) : Nat :=
  evs.count (Event.sleep 120)

/-- Scanner for `sendsSeparatedBy120`: the flag records whether a send has
been seen with no 120-second sleep after it yet. -/
def sepAux : Bool → List Event → Bool
  | _, [] => true
  | needDelay, Event.lookupAcct _ :: rest => sepAux needDelay rest
  | needDelay, Event.genCode _ :: rest => sepAux needDelay rest
  | needDelay, Event.sendDM _ _ _ _ :: rest =>
      if needDelay then false else sepAux true rest
  | needDelay, Event.sleep n :: rest =>
      if n = 120 then sepAux false rest else sepAux needDelay rest

/-- Whether every pair of consecutive DM sends in the trace has a
120-second sleep between them. -/
def sendsSeparatedBy120 (evs : List Event) : Bool :=
  sepAux false evs

/-- The number of delivery attempts the retry policy performs given the
per-attempt outcomes: stop after the first success, never exceed three. -/
def attemptsMade (d : Nat → Bool) : Nat :=
  if d 0 then 1 else if d 1 then 2 else 3

/-- Whether any of the three possible attempts succeeds. -/
def anySuccess (d : Nat → Bool) : Bool :=
  d 0 || d 1 || d 2

/-- The message bodies and retry flags of the DM sends in a trace. -/
def sendMessages (evs : List Event) : List (String × Bool) :=
  evs.filterMap (fun e =>
    match e with
    | Event.sendDM _ _ m b => some (m, b)
    | _ => none)

/-! ## Sample environments and rows -/

/-- A sample environment whose account directory knows only `alice`,
created 199 whole days before `nowUtc`; the delivery outcomes are the
parameter. -/
def mkEnv (outcome : Nat → Bool) : Env :=
  { nowUtc := 86400 * 200,
    lookup := fun n => if n = "alice" then Except.ok 86400 else Except.error "not found",
    freshCode := "1A2B3C4D",
    dmOutcome := outcome,
    humorIdx := 0,
    rejectIdx := 0 }

/-- A fresh sign-up row for `alice` with an accepted DM preference. -/
def rowFresh : Row :=
  { username := "u/alice",
    dm_pref := "Maybe, but only if my match is cool.",
    code := "",
    status := "",
    dm_status := "" }

/-- A header row whose `Status` column is present but lower-cased. -/
def headersCaseVariant : List String :=
  ["Reddit Username:",
   "Do You Accept DM Notifications About Your Match?",
   "Code",
   "status",
   "DM Status"]

/-- A row body that faults on the `u/crash` row and is a no-op otherwise. -/
def bodyCrash : Row → Except Row (Row × List Event) :=
  fun r => if r.username = "u/crash" then Except.error r else Except.ok (r, [])

/-- The row the fault-injecting body crashes on. -/
def rowCrash : Row :=
  { username := "u/crash", dm_pref := "x", code := "", status := "", dm_status := "" }

/-! ## Lemmas about the character-level split -/

lemma splitUSlash_ne_nil (l : List Char) : splitUSlash l ≠ [] := by
  match l with
  | [] => simp [splitUSlash]
  | [c] => simp [splitUSlash]
  | c1 :: c2 :: cs =>
    simp only [splitUSlash]
    split
    · simp
    · split <;> simp

/-- Splitting a list that contains no occurrence of `u/` anywhere before a
literal `u/` cuts exactly at that first separator. -/
lemma splitUSlash_append_sep (pre rest : List Char) (h : splitUSlash pre = [pre]) :
    splitUSlash (pre ++ 'u' :: '/' :: rest) = pre :: splitUSlash rest := by
  induction pre with
  | nil =>
    simp [splitUSlash]
  | cons c pre ih =>
    cases pre with
    | nil =>
      simp only [List.nil_append, List.cons_append, splitUSlash]
      rw [if_neg (by simp), if_pos (by simp)]
    | cons d t =>
      have hcd : ¬(c = 'u' ∧ d = '/') := by
        intro hc
        rw [splitUSlash, if_pos hc] at h
        exact absurd (List.head_eq_of_cons_eq h) (by simp)
      have hdt : splitUSlash (d :: t) = [d :: t] := by
        rw [splitUSlash, if_neg hcd] at h
        rcases hs : splitUSlash (d :: t) with _ | ⟨p, ps⟩
        · rw [hs] at h
          simp only [List.cons.injEq] at h
          exact absurd h.1.2 (by simp)
        · rw [hs] at h
          simp only [List.cons.injEq] at h
          rw [h.1.2, h.2]
      have := ih hdt
      simp only [List.cons_append] at this ⊢
      rw [splitUSlash, if_neg hcd, this]

/-- A list of whitespace characters contains no `u/` separator. -/
lemma splitUSlash_whitespace (l : List Char) (h : ∀ c ∈ l, c.isWhitespace) :
    splitUSlash l = [l] := by
  induction l with
  | nil => rfl
  | cons c cs ih =>
    cases cs with
    | nil => rfl
    | cons d t =>
      have hc : c ≠ 'u' := by
        intro hc
        have := h c (by simp)
        rw [hc] at this
        simp [Char.isWhitespace, Char.isValue] at this
      rw [splitUSlash, if_neg (by tauto),
        ih (fun x hx => h x (List.mem_cons_of_mem c hx))]

lemma lastPart_cons (p q : List Char) (ps : List (List Char)) :
    lastPart (p :: q :: ps) = lastPart (q :: ps) := rfl

/-! ## The eligible branch of the row state machine -/

/-- Unfolding of `processRow` for a row that passes the skip, preference,
format and eligibility checks. -/
lemma processRow_eligible (v : Variant) (env : Env) (row : Row)
    (hskip : skipStatuses.contains row.status = false)
    (hpref : ACCEPTED_PREFS.contains (pyStripS row.dm_pref) = true)
    (hfmt : pyStartsWith (pyLower (pyStripS row.username)) "u/" = true)
    (helig : is_eligible env (pyStripS row.username) = true) :
    processRow v env row =
      ({(if row.code = "" then {row with code := generate_code env} else row) with
          status :=
            if (retryLoop v env (pyStripS row.username)
                (acceptMessage v (generate_code env) (HUMOR_dm_messages.getD env.humorIdx ""))
                0 MAX_DM_RETRIES).1
            then "Processed" else "Failed",
          dm_status :=
            if (retryLoop v env (pyStripS row.username)
                (acceptMessage v (generate_code env) (HUMOR_dm_messages.getD env.humorIdx ""))
                0 MAX_DM_RETRIES).1
            then "✅ Sent" else "❌ Failed"},
       Event.lookupAcct (lookupName (pyStripS row.username))
         :: Event.genCode (generate_code env)
         :: (retryLoop v env (pyStripS row.username)
              (acceptMessage v (generate_code env) (HUMOR_dm_messages.getD env.humorIdx ""))
              0 MAX_DM_RETRIES).2) := by
  have hskip' : ¬(row.status ∈ skipStatuses) := by simpa using hskip
  have hpref' : pyStripS row.dm_pref ∈ ACCEPTED_PREFS := by simpa using hpref
  simp [processRow, hskip', hpref', hfmt, helig]

/-! ## Characterizations of the retry loop -/

lemma retryLoop_success_iff (v : Variant) (env : Env) (u m : String) :
    (retryLoop v env u m 0 MAX_DM_RETRIES).1 = anySuccess env.dmOutcome := by
  cases h0 : env.dmOutcome 0 <;> cases h1 : env.dmOutcome 1 <;> cases h2 : env.dmOutcome 2 <;>
    simp [retryLoop, send_dm, MAX_DM_RETRIES, anySuccess, h0, h1, h2]

lemma retryLoop_numSends (v : Variant) (env : Env) (u m : String) :
    numSends (retryLoop v env u m 0 MAX_DM_RETRIES).2 = attemptsMade env.dmOutcome := by
  cases h0 : env.dmOutcome 0 <;> cases h1 : env.dmOutcome 1 <;> cases h2 : env.dmOutcome 2 <;>
    cases v <;>
    simp [retryLoop, send_dm, MAX_DM_RETRIES, variantSleeps, numSends, sendRetryFlags,
      attemptsMade, h0, h1, h2]

lemma retryLoop_flags (v : Variant) (env : Env) (u m : String) :
    sendRetryFlags (retryLoop v env u m 0 MAX_DM_RETRIES).2 =
      (List.range (attemptsMade env.dmOutcome)).map (fun i => decide (0 < i)) := by
  cases h0 : env.dmOutcome 0 <;> cases h1 : env.dmOutcome 1 <;> cases h2 : env.dmOutcome 2 <;>
    cases v <;>
    simp [retryLoop, send_dm, MAX_DM_RETRIES, variantSleeps, sendRetryFlags, attemptsMade,
      List.range_succ, h0, h1, h2]

lemma retryLoop_messages (v : Variant) (env : Env) (u m : String) :
    sendMessages (retryLoop v env u m 0 MAX_DM_RETRIES).2 =
      (List.range (attemptsMade env.dmOutcome)).map
        (fun i => (if 0 < i then m ++ RETRY_WARNING else m, decide (0 < i))) := by
  cases h0 : env.dmOutcome 0 <;> cases h1 : env.dmOutcome 1 <;> cases h2 : env.dmOutcome 2 <;>
    cases v <;>
    simp [retryLoop, send_dm, MAX_DM_RETRIES, variantSleeps, sendMessages, attemptsMade,
      List.range_succ, h0, h1, h2]

lemma retryLoop_sep120_immediate (env : Env) (u m : String) :
    sendsSeparatedBy120 (retryLoop Variant.immediate env u m 0 MAX_DM_RETRIES).2 = true := by
  cases h0 : env.dmOutcome 0 <;> cases h1 : env.dmOutcome 1 <;> cases h2 : env.dmOutcome 2 <;>
    simp [retryLoop, send_dm, MAX_DM_RETRIES, variantSleeps, sendsSeparatedBy120, sepAux,
      h0, h1, h2]

lemma retryLoop_no120_main (env : Env) (u m : String) :
    sleep120Count (retryLoop Variant.main env u m 0 MAX_DM_RETRIES).2 = 0 := by
  cases h0 : env.dmOutcome 0 <;> cases h1 : env.dmOutcome 1 <;> cases h2 : env.dmOutcome 2 <;>
    simp [retryLoop, send_dm, MAX_DM_RETRIES, variantSleeps, sleep120Count, h0, h1, h2]

/-! ## Claims -/

/-- C1: in both variants, a row whose status cell already holds
`Processed`, `Rejected` or `Opted Out` at the start of its processing is
skipped outright: its cells (status, code, delivery status) are returned
unchanged, and the trace is empty, so no eligibility lookup, code
generation, message delivery or sleep occurs for it. -/
theorem terminal_rows_untouched (v : Variant) (env : Env) (row : Row)
    (h : skipStatuses.contains row.status = true) :
    processRow v env row = (row, []) := by
  have h' : row.status ∈ skipStatuses := by simpa using h
  simp [processRow, h']

/-- C1 witness: a row already marked `Processed` is returned unchanged with
an empty trace. -/
theorem terminal_rows_untouched_witness :
    processRow Variant.main (mkEnv fun _ => true) {rowFresh with status := "Processed"} =
      ({rowFresh with status := "Processed"}, []) :=
  terminal_rows_untouched Variant.main (mkEnv fun _ => true)
    {rowFresh with status := "Processed"} (by decide)

/-- C2: in both variants, for a row passing the preference, format and
eligibility checks, the number of delivery attempts is `attemptsMade`
(one more than the index of the first success, capped at
`MAX_DM_RETRIES = 3`, so no attempt follows a success and at most three
are made), the final status is `Processed` exactly when some attempt
succeeded and `Failed` otherwise, and the DM-status cell gets the success
marker exactly when some attempt succeeded. -/
theorem dm_retry_policy (v : Variant) (env : Env) (row : Row)
    (hskip : skipStatuses.contains row.status = false)
    (hpref : ACCEPTED_PREFS.contains (pyStripS row.dm_pref) = true)
    (hfmt : pyStartsWith (pyLower (pyStripS row.username)) "u/" = true)
    (helig : is_eligible env (pyStripS row.username) = true) :
    numSends (processRow v env row).2 ≤ MAX_DM_RETRIES ∧
    numSends (processRow v env row).2 = attemptsMade env.dmOutcome ∧
    (processRow v env row).1.status =
      (if anySuccess env.dmOutcome then "Processed" else "Failed") ∧
    (processRow v env row).1.dm_status =
      (if anySuccess env.dmOutcome then "✅ Sent" else "❌ Failed") := by
  have hn : numSends (processRow v env row).2 = attemptsMade env.dmOutcome := by
    rw [processRow_eligible v env row hskip hpref hfmt helig]
    simp only [numSends, sendRetryFlags, List.filterMap_cons]
    exact retryLoop_numSends v env _ _
  refine ⟨?_, hn, ?_, ?_⟩
  · rw [hn]
    unfold attemptsMade MAX_DM_RETRIES
    split
    · omega
    · split <;> omega
  · rw [processRow_eligible v env row hskip hpref hfmt helig]
    simp [retryLoop_success_iff]
  · rw [processRow_eligible v env row hskip hpref hfmt helig]
    simp [retryLoop_success_iff]

/-- C2 witness: with delivery failing on the first attempt and succeeding
on the second, two attempts are made, the status becomes `Processed` and
the DM-status the success marker. -/
theorem dm_retry_policy_witness :
    numSends (processRow Variant.immediate (mkEnv fun i => decide (i = 1)) rowFresh).2 = 2 ∧
    (processRow Variant.immediate (mkEnv fun i => decide (i = 1)) rowFresh).1.status = "Processed" ∧
    (processRow Variant.immediate (mkEnv fun i => decide (i = 1)) rowFresh).1.dm_status = "✅ Sent" := by
  have h := dm_retry_policy Variant.immediate (mkEnv fun i => decide (i = 1)) rowFresh
    (by decide) (by decide) (by decide) (by decide)
  exact ⟨h.2.1.trans (by decide), h.2.2.1.trans (by decide), h.2.2.2.trans (by decide)⟩

/-- C3 counterexample: code generation is *not* skipped when a code already
exists in the cell.  On a row whose code cell holds `OLDCODE1`, processing
still generates a fresh code (the `genCode` event appears in the trace);
only the write to the cell is skipped. -/
theorem code_generation_not_skipped_cex :
    ({rowFresh with code := "OLDCODE1"} : Row).code ≠ "" ∧
    Event.genCode "1A2B3C4D" ∈
      (processRow Variant.main (mkEnv fun _ => true) {rowFresh with code := "OLDCODE1"}).2 ∧
    (processRow Variant.main (mkEnv fun _ => true) {rowFresh with code := "OLDCODE1"}).1.code =
      "OLDCODE1" := by
  refine ⟨by decide, by decide, by decide⟩

/-- C3 amended: for every row reaching the code step, a code is written to
the code cell if and only if that cell was previously empty, and a code,
once written, is never overwritten on any later run; code generation
itself, however, always runs (a fresh code is generated on every pass
through the code step — only the *write* is skipped when a code already
exists in the cell). -/
theorem code_write_guard_amended :
    (∀ (v : Variant) (env : Env) (row : Row),
      skipStatuses.contains row.status = false →
      ACCEPTED_PREFS.contains (pyStripS row.dm_pref) = true →
      pyStartsWith (pyLower (pyStripS row.username)) "u/" = true →
      is_eligible env (pyStripS row.username) = true →
      (Event.genCode (generate_code env) ∈ (processRow v env row).2 ∧
       (row.code = "" → (processRow v env row).1.code = generate_code env) ∧
       (row.code ≠ "" → (processRow v env row).1.code = row.code))) ∧
    (∀ (v : Variant) (env : Env) (row : Row),
      row.code ≠ "" → (processRow v env row).1.code = row.code) := by
  constructor
  · intro v env row hskip hpref hfmt helig
    rw [processRow_eligible v env row hskip hpref hfmt helig]
    refine ⟨by simp, fun hc => by simp [hc], fun hc => by simp [hc]⟩
  · intro v env row hc
    by_cases hskip : row.status ∈ skipStatuses
    · simp [processRow, hskip]
    · by_cases hpref : pyStripS row.dm_pref ∈ ACCEPTED_PREFS
      · by_cases hfmt : pyStartsWith (pyLower (pyStripS row.username)) "u/" = true
        · by_cases helig : is_eligible env (pyStripS row.username) = true
          · rw [processRow_eligible v env row (by simpa using hskip) (by simpa using hpref)
              hfmt helig]
            simp [hc]
          · simp [processRow, hskip, hpref, hfmt,
              (Bool.not_eq_true _).mp helig]
        · simp [processRow, hskip, hpref, (Bool.not_eq_true _).mp hfmt]
      · simp [processRow, hskip, hpref]

/-- C3 witness: the guarded write at work — an empty code cell receives the
fresh code, a non-empty one keeps its old value. -/
theorem code_write_guard_witness :
    (processRow Variant.main (mkEnv fun _ => true) rowFresh).1.code = "1A2B3C4D" ∧
    (processRow Variant.main (mkEnv fun _ => true) {rowFresh with code := "OLDCODE1"}).1.code =
      "OLDCODE1" := by
  constructor
  · exact (code_write_guard_amended.1 Variant.main (mkEnv fun _ => true) rowFresh
      (by decide) (by decide) (by decide) (by decide)).2.1 (by decide)
  · exact code_write_guard_amended.2 Variant.main (mkEnv fun _ => true)
      {rowFresh with code := "OLDCODE1"} (by decide)

/-- C4: the eligibility checker is fail-closed — whatever error the account
lookup signals (account not found, network error, rate limiting: any
exception), `is_eligible` returns `false`; being `Bool`-valued in the
embedding, it propagates no fault to its caller. -/
theorem eligibility_fail_closed (env : Env) (username msg : String)
    (h : env.lookup (lookupName username) = Except.error msg) :
    is_eligible env username = false := by
  simp [is_eligible, is_eligible_checked, h]

/-- C4 witness: looking up an unknown account yields `false`. -/
theorem eligibility_fail_closed_witness :
    is_eligible (mkEnv fun _ => true) "u/ghost" = false :=
  eligibility_fail_closed (mkEnv fun _ => true) "u/ghost" "not found" rfl

/-- C5 (code bug): on a header row whose required columns are all present
up to whitespace and case (`status` in lower case), the
`immediate_response_script.py` resolver aborts with
`Missing critical column: 'Status'` — its case-insensitive matching
decides the column need not be created, but its final verification then
demands an exact match.  The `main.py` resolver, by contrast, returns a
complete mapping on the same header (appending a duplicate `Status`
column). -/
theorem setup_sheet_case_variant_bug :
    setup_sheet_immediate headersCaseVariant =
      Except.error "Missing critical column: \x27Status\x27" ∧
    setup_sheet_main headersCaseVariant =
      Except.ok
        [("username", 1), ("dm_pref", 2), ("code", 3), ("status", 6), ("dm_status", 5)] := by
  refine ⟨rfl, rfl⟩

/-- C6: in both variants, for a row whose preference is accepted and whose
handle passes the format check, an ineligible verdict leads to exactly one
rejection-DM attempt and the final status `Rejected` — whether or not that
delivery attempt succeeds (the environment's delivery outcome is
universally quantified), and the code and DM-status cells are untouched. -/
theorem ineligible_row_rejected (v : Variant) (env : Env) (row : Row)
    (hskip : skipStatuses.contains row.status = false)
    (hpref : ACCEPTED_PREFS.contains (pyStripS row.dm_pref) = true)
    (hfmt : pyStartsWith (pyLower (pyStripS row.username)) "u/" = true)
    (helig : is_eligible env (pyStripS row.username) = false) :
    (processRow v env row).1 = {row with status := "Rejected"} ∧
    numSends (processRow v env row).2 = 1 := by
  have hskip' : ¬(row.status ∈ skipStatuses) := by simpa using hskip
  have hpref' : pyStripS row.dm_pref ∈ ACCEPTED_PREFS := by simpa using hpref
  cases hdm : env.dmOutcome 0 <;>
    simp [processRow, hskip', hpref', hfmt, helig, send_dm, numSends, sendRetryFlags, hdm]

/-- C6 witness: an unknown account's row is rejected after a single
(failing) rejection DM. -/
theorem ineligible_row_rejected_witness :
    (processRow Variant.immediate (mkEnv fun _ => false) {rowFresh with username := "u/ghost"}).1 =
      {rowFresh with username := "u/ghost", status := "Rejected"} ∧
    numSends (processRow Variant.immediate (mkEnv fun _ => false)
      {rowFresh with username := "u/ghost"}).2 = 1 := by
  have h := ineligible_row_rejected Variant.immediate (mkEnv fun _ => false)
    {rowFresh with username := "u/ghost"} (by decide) (by decide) (by decide) (by decide)
  exact h

/-- C7 counterexample: in the `main.py` variant an eligible row whose
delivery fails every time gets three delivery attempts with *no*
120-second delay anywhere in the trace — consecutive attempts are not
separated by the fixed delay the claim asserts. -/
theorem no_delay_between_attempts_cex :
    numSends (processRow Variant.main (mkEnv fun _ => false) rowFresh).2 = 3 ∧
    sleep120Count (processRow Variant.main (mkEnv fun _ => false) rowFresh).2 = 0 ∧
    sendsSeparatedBy120 (processRow Variant.main (mkEnv fun _ => false) rowFresh).2 = false := by
  refine ⟨by decide, by decide, by decide⟩

/-- C7 amended: for eligible rows, in both variants the first delivery
attempt is marked original and every later one as a retry, and no attempt
follows the first success (the flags are `[false, true, true, ...]` of
length `attemptsMade`); in the `immediate_response_script.py` variant
every pair of consecutive attempts is separated by a 120-second sleep
(one also follows a final failure), while in the `main.py` variant no
120-second delay occurs at all — its attempts run back-to-back. -/
theorem retry_pacing_amended (env : Env) (row : Row)
    (hskip : skipStatuses.contains row.status = false)
    (hpref : ACCEPTED_PREFS.contains (pyStripS row.dm_pref) = true)
    (hfmt : pyStartsWith (pyLower (pyStripS row.username)) "u/" = true)
    (helig : is_eligible env (pyStripS row.username) = true) :
    (∀ v : Variant,
      sendRetryFlags (processRow v env row).2 =
        (List.range (attemptsMade env.dmOutcome)).map (fun i => decide (0 < i))) ∧
    sendsSeparatedBy120 (processRow Variant.immediate env row).2 = true ∧
    sleep120Count (processRow Variant.main env row).2 = 0 := by
  refine ⟨?_, ?_, ?_⟩
  · intro v
    rw [processRow_eligible v env row hskip hpref hfmt helig]
    simp only [sendRetryFlags, List.filterMap_cons]
    exact retryLoop_flags v env _ _
  · rw [processRow_eligible Variant.immediate env row hskip hpref hfmt helig]
    simp only [sendsSeparatedBy120, sepAux]
    exact retryLoop_sep120_immediate env _ _
  · rw [processRow_eligible Variant.main env row hskip hpref hfmt helig]
    have h0 := retryLoop_no120_main env (pyStripS row.username)
      (acceptMessage Variant.main (generate_code env) (HUMOR_dm_messages.getD env.humorIdx ""))
    unfold sleep120Count at h0 ⊢
    simpa [List.count_cons] using h0

/-- C7 witness: with all three attempts failing in the immediate variant,
the flags are original-retry-retry and consecutive attempts are separated
by 120-second sleeps. -/
theorem retry_pacing_witness :
    sendRetryFlags (processRow Variant.immediate (mkEnv fun _ => false) rowFresh).2 =
      [false, true, true] ∧
    sendsSeparatedBy120 (processRow Variant.immediate (mkEnv fun _ => false) rowFresh).2 = true := by
  have h := retry_pacing_amended (mkEnv fun _ => false) rowFresh
    (by decide) (by decide) (by decide) (by decide)
  exact ⟨(h.1 Variant.immediate).trans (by decide), h.2.1⟩

/-- C8 counterexample: the prefix strip of the eligibility checker is
*case-sensitive*.  The handle `U/alice` passes the (case-insensitive)
format check of the row processor, yet the checker looks up `U/alice`
itself, not `alice` — so the very same account is eligible via `u/alice`
and ineligible via `U/alice`.  Also, `split('u/')[-1]` keeps only what
follows the *last* lowercase `u/` occurrence, not everything after the
prefix. -/
theorem uppercase_prefix_not_stripped_cex :
    pyStartsWith (pyLower "U/alice") "u/" = true ∧
    lookupName "U/alice" = "U/alice" ∧
    lookupName "u/ab u/cd" = "cd" ∧
    is_eligible (mkEnv fun _ => true) "u/alice" = true ∧
    is_eligible (mkEnv fun _ => true) "U/alice" = false := by
  refine ⟨by decide, by decide, by decide, by decide, by decide⟩

/-- C8 amended: for every handle of the form `<ws>u/<name>` with a
*lowercase* `u/` prefix, `<ws>` whitespace and `<name>` containing no
further `u/` occurrence, the eligibility checker performs the account
lookup on exactly `<name>` with the prefix and surrounding whitespace
removed, and compares the account's elapsed whole days
(`(now - created) / 86400`) against the configured minimum of 90; an
upper-case `U/` prefix is not removed. -/
theorem handle_parsing_amended (ws name : List Char) (env : Env)
    (hws : ∀ c ∈ ws, c.isWhitespace)
    (hname : splitUSlash name = [name]) :
    lookupName (String.mk (ws ++ 'u' :: '/' :: name)) = String.mk (pyStrip name) ∧
    is_eligible env (String.mk (ws ++ 'u' :: '/' :: name)) =
      (match env.lookup (String.mk (pyStrip name)) with
       | Except.ok created => decide ((env.nowUtc - created) / 86400 ≥ MIN_ACCOUNT_AGE_DAYS)
       | Except.error _ => false) := by
  have hl : lookupName (String.mk (ws ++ 'u' :: '/' :: name)) = String.mk (pyStrip name) := by
    unfold lookupName
    rw [show (String.mk (ws ++ 'u' :: '/' :: name)).data = ws ++ 'u' :: '/' :: name from rfl]
    rw [splitUSlash_append_sep ws name (splitUSlash_whitespace ws hws), hname, lastPart_cons]
    rfl
  refine ⟨hl, ?_⟩
  cases hres : env.lookup (String.mk (pyStrip name)) <;>
    simp [is_eligible, is_eligible_checked, hl, hres]

/-- C8 witness: `" u/alice "`-shaped input, given as character lists, is
looked up as `alice` and found eligible. -/
theorem handle_parsing_witness :
    lookupName (String.mk ([' '] ++ 'u' :: '/' :: ['a', 'l', 'i', 'c', 'e', ' '])) =
      String.mk (pyStrip ['a', 'l', 'i', 'c', 'e', ' ']) ∧
    is_eligible (mkEnv fun _ => true)
      (String.mk ([' '] ++ 'u' :: '/' :: ['a', 'l', 'i', 'c', 'e', ' '])) = true := by
  have h := handle_parsing_amended [' '] ['a', 'l', 'i', 'c', 'e', ' '] (mkEnv fun _ => true)
    (by decide) (by decide)
  exact ⟨h.1, h.2.trans (by decide)⟩

/-- C9: fault isolation at row granularity — the loop produces one output
per row (a faulting row never aborts the run: every later row is still
processed, each row's output depending only on its own body result), and
a row whose body raises gets its status forced to `Error`. -/
theorem row_faults_isolated (body : Row → Except Row (Row × List Event)) (rows : List Row) :
    (runRows body rows).length = rows.length ∧
    (∀ i, i < rows.length →
      (runRows body rows).getD i default = processRowCaught body (rows.getD i default)) ∧
    (∀ row bad, body row = Except.error bad →
      (processRowCaught body row).1.status = "Error") := by
  refine ⟨?_, ?_, ?_⟩
  · induction rows with
    | nil => rfl
    | cons r rs ih => simp [runRows, ih]
  · intro i hi
    induction rows generalizing i with
    | nil => simp at hi
    | cons r rs ih =>
      cases i with
      | zero => simp [runRows]
      | succ n =>
        simp only [runRows, List.getD_cons_succ]
        exact ih n (by simpa using hi)
  · intro row bad h
    simp [processRowCaught, h]

/-- C9 witness: with a body that faults on the `u/crash` row, a two-row run
still yields two outputs and the crashing row's status is `Error`. -/
theorem row_faults_isolated_witness :
    (runRows bodyCrash [rowFresh, rowCrash]).length = 2 ∧
    (processRowCaught bodyCrash rowCrash).1.status = "Error" := by
  have h := row_faults_isolated bodyCrash [rowFresh, rowCrash]
  exact ⟨h.1.trans (by decide), h.2.2 rowCrash rowCrash rfl⟩

/-- C10: for every eligible row, every delivered acceptance message is
built around the freshly generated code (`generate_code env`), never
around the stored one; hence the delivered code equals the code stored in
the sheet after processing exactly when the code cell was empty (the
fresh code is then written), while for a row whose code cell was already
non-empty the stored value is kept, so — barring a hash collision between
the fresh and the stored code — the delivered code differs from the
stored one. -/
theorem delivered_vs_stored_code (v : Variant) (env : Env) (row : Row)
    (hskip : skipStatuses.contains row.status = false)
    (hpref : ACCEPTED_PREFS.contains (pyStripS row.dm_pref) = true)
    (hfmt : pyStartsWith (pyLower (pyStripS row.username)) "u/" = true)
    (helig : is_eligible env (pyStripS row.username) = true) :
    sendMessages (processRow v env row).2 =
      (List.range (attemptsMade env.dmOutcome)).map
        (fun i =>
          (if 0 < i then
             acceptMessage v (generate_code env) (HUMOR_dm_messages.getD env.humorIdx "")
               ++ RETRY_WARNING
           else
             acceptMessage v (generate_code env) (HUMOR_dm_messages.getD env.humorIdx ""),
           decide (0 < i))) ∧
    (row.code = "" → (processRow v env row).1.code = generate_code env) ∧
    (row.code ≠ "" →
      (processRow v env row).1.code = row.code ∧
      (generate_code env ≠ row.code →
        generate_code env ≠ (processRow v env row).1.code)) := by
  rw [processRow_eligible v env row hskip hpref hfmt helig]
  refine ⟨?_, ?_, ?_⟩
  · simp only [sendMessages, List.filterMap_cons]
    exact retryLoop_messages v env _ _
  · intro hc
    simp [hc]
  · intro hc
    constructor
    · simp [hc]
    · intro hne
      simpa [hc] using hne

/-- C10 witness: with a pre-filled code cell, the delivered message carries
the fresh code `1A2B3C4D` while the sheet keeps `OLDCODE1`. -/
theorem delivered_vs_stored_code_witness :
    (sendMessages (processRow Variant.main (mkEnv fun _ => true)
        {rowFresh with code := "OLDCODE1"}).2).length = 1 ∧
    (processRow Variant.main (mkEnv fun _ => true) {rowFresh with code := "OLDCODE1"}).1.code =
      "OLDCODE1" ∧
    generate_code (mkEnv fun _ => true) ≠
      (processRow Variant.main (mkEnv fun _ => true) {rowFresh with code := "OLDCODE1"}).1.code := by
  have h := delivered_vs_stored_code Variant.main (mkEnv fun _ => true)
    {rowFresh with code := "OLDCODE1"} (by decide) (by decide) (by decide) (by decide)
  refine ⟨by rw [h.1]; decide, (h.2.2 (by decide)).1, (h.2.2 (by decide)).2 (by decide)⟩

end RedditMatchMaker
